import Mathlib

/-!
Shallow embedding of `site_creator.py`, a one-shot batch site-provisioning
script.  External effects (the Google geocoder, the Google timezone API and
the Mist REST API) are modelled by oracles packaged in an `Env`; the calls
the script makes to the Mist write/lookup endpoints are recorded in an
event trace.  Python runtime errors that the script does not catch
(`TypeError` from subscripting `None`, `StopIteration` from `next`,
`KeyError` from a missing dict key, `AttributeError` from `.status_code`
on `None`) are modelled with `Except PyError`.
-/

namespace SiteCreator

/-- JSON-like values appearing in the request bodies the script builds.
Python `None` is `null`; floats carry no arithmetic in this script, so
coordinates are modelled exactly as rationals. -/
inductive JVal where
  | str : String → JVal
  | num : Rat → JVal
  | null : JVal
  | obj : List (String × JVal) → JVal

/-- A Python dict with string keys, in insertion order (Python 3 dicts
preserve insertion order). -/
abbrev Body := List (String × JVal)

/-- An input row as produced by `csv.DictReader`: column name to cell. -/
abbrev Record := List (String × String)

/-- Lookup of a key in a dict, `none` when absent. -/
def dictGet (d : Body) (k : String) : Option JVal :=
  (d.find? (fun p => p.1 == k)).map (fun p => p.2)

/-- Python dict assignment `d[k] = v`: overwrite in place when the key is
present, append otherwise. -/
def dictSet (d : Body) (k : String) (v : JVal) : Body :=
  if d.any (fun p => p.1 == k) then
    d.map (fun p => if p.1 == k then (k, v) else p)
  else
    d ++ [(k, v)]

/-- Whether a dict has a key. -/
def hasKey (d : Body) (k : String) : Bool :=
  d.any (fun p => p.1 == k)

/-- Lookup of a field of an input row, `none` when the column is absent. -/
def getField (r : Record) (k : String) : Option String :=
  (r.find? (fun p => p.1 == k)).map (fun p => p.2)

/-- Uncaught Python runtime errors the script can die with. -/
inductive PyError where
  | typeError
  | stopIteration
  | keyError : String → PyError
  | attributeError
deriving DecidableEq, Repr

/-- Calls made to the Mist API during a run (template listing lookups and
site-creation POSTs). -/
inductive Event where
  | templateLookup : String → Event
  | createSite : Body → Event

/-- Result of `geocoder.google(address)`: the `geocoder` library returns an
object whose `address`, `lat`, `lng`, `country` attributes are `None` when
the lookup found nothing. -/
structure GAddr where
  address : Option String
  lat : Option Rat
  lng : Option Rat
  country : Option String

/-- An RF template as returned by the Mist templates endpoint; the script
uses its `name` and `id` fields. -/
structure Template where
  name : String
  id : String
deriving DecidableEq, Repr

/-- Oracles for the external services one run talks to.
`geo addr = none` models `geocoder.google` raising (so
`get_google_geoinfo` returns `None`); `tz` likewise `none` on any timezone
failure; `templates = none` models `get_rf_templates` returning `None`;
`post body = none` models `http_post` swallowing a transport error and
returning `None`, otherwise the HTTP status code; `selfResp` is the status
of `GET /api/v1/self` (`none` = transport failure, so `http_get` returned
`None`). -/
structure Env where
  geo : String → Option GAddr
  tz : JVal → JVal → Option String
  templates : Option (List Template)
  post : Body → Option Nat
  selfResp : Option Nat

/-- Embed an optional value into a JSON value, Python `None` becoming
`null`. -/
def optVal (f : α → JVal) : Option α → JVal
  | some a => f a
  | none => JVal.null

/-- Embedding of `Mist.verify_self`.  `http_get` returning `None` makes
`results.status_code` raise, which is caught and returns `False`; a 200
returns `True`; any other status falls off the end of the function, which
in Python returns `None`. -/
def verify_self (selfResp : Option Nat) : Option Bool :=
  match selfResp with
  | none => some false
  | some status => if status = 200 then some true else none

/-- Python truthiness of the `api_verify` value (`None` and `False` are
falsy). -/
def truthy : Option Bool → Bool
  | some b => b
  | none => false

/-- The dict built at lines 181–188 of `get_google_geoinfo` from a
geocoder result: keys `address`, `latlng` (a nested dict with `lat` and
`lng`) and `country_code`, attributes that were `None` becoming `null`. -/
def geoBody (gaddr : GAddr) : Body :=
  [("address", optVal JVal.str gaddr.address),
   ("latlng", JVal.obj
      [("lat", optVal JVal.num gaddr.lat),
       ("lng", optVal JVal.num gaddr.lng)]),
   ("country_code", optVal JVal.str gaddr.country)]

/-- Embedding of `get_google_geoinfo`: on success it builds `geoBody`
from the geocoder result; on an exception it returns `None`. -/
def get_google_geoinfo (geo : String → Option GAddr) (address : String) :
    Option Body :=
  (geo address).map geoBody

/-- Embedding of `get_google_timezone`: one lookup keyed on the two
coordinate values taken from the body, `none` on any failure. -/
def get_google_timezone (tz : JVal → JVal → Option String) (lat lng : JVal) :
    Option String :=
  tz lat lng

/-- Embedding of `Mist.get_rf_templates`: the decoded template list, or
`None` when the HTTP call or the JSON decode failed. -/
def get_rf_templates (templates : Option (List Template)) :
    Option (List Template) :=
  templates

/-- Embedding of `Mist.get_rftemplate_by_name`:
`next(item for item in rf_templates if item["name"] == rf_template_name)`.
Iterating over `None` raises `TypeError`; an exhausted generator raises
`StopIteration`; otherwise the first template whose `name` equals the
argument (exact, case-sensitive `==`) is returned. -/
def get_rftemplate_by_name (templates : Option (List Template))
    (rf_template_name : String) : Except PyError Template :=
  match get_rf_templates templates with
  | none => Except.error PyError.typeError
  | some ts =>
    match ts.find? (fun t => t.name == rf_template_name) with
    | some t => Except.ok t
    | none => Except.error PyError.stopIteration

/-- Embedding of `Mist.create_site`: one POST, returning the response
status or `none` when `http_post` returned `None`. -/
def create_site (post : Body → Option Nat) (body : Body) : Option Nat :=
  post body

/-- Embedding of `csv.DictReader` over `sites.csv`: each data row becomes
a dict pairing the header fields with the row's cells.  The reader
performs no validation of the header whatsoever. -/
def read_csv (header : List String) (rows : List (List String)) :
    List Record :=
  rows.map (fun row => header.zip row)

/-- Subscripting a JSON value: `v[k]` raises `TypeError` unless `v` is a
dict, and `KeyError` when the key is absent. -/
def jGet (v : JVal) (k : String) : Except PyError JVal :=
  match v with
  | JVal.obj d =>
    match dictGet d k with
    | some x => Except.ok x
    | none => Except.error (PyError.keyError k)
  | _ => Except.error (PyError.keyError k)

/-- Subscripting an input row: `site[k]` raises `KeyError` when the column
is absent. -/
def pyField (site : Record) (k : String) : Except PyError String :=
  match getField site k with
  | some v => Except.ok v
  | none => Except.error (PyError.keyError k)

/-- Lines 217–219 of `main`: geocode the address, set `name`, then set
`timezone` from the coordinates read back out of the body.  Subscripting
`None` (a failed geocode) raises `TypeError`. -/
def buildBody (env : Env) (site : Record) : Except PyError Body :=
  match getField site "site_address" with
  | none => Except.error (PyError.keyError "site_address")
  | some addr =>
    match get_google_geoinfo env.geo addr with
    | none => Except.error PyError.typeError
    | some body0 =>
      match getField site "site_name" with
      | none => Except.error (PyError.keyError "site_name")
      | some name =>
        let body1 := dictSet body0 "name" (JVal.str name)
        match dictGet body1 "latlng" with
        | none => Except.error (PyError.keyError "latlng")
        | some latlng =>
          match jGet latlng "lat" with
          | Except.error e => Except.error e
          | Except.ok latV =>
            match jGet latlng "lng" with
            | Except.error e => Except.error e
            | Except.ok lngV =>
              Except.ok (dictSet body1 "timezone"
                (optVal JVal.str (get_google_timezone env.tz latV lngV)))

/-- Lines 222–224 of `main`: POST the body and read the status.
`http_post` returning `None` makes `results.status_code` raise
`AttributeError`, which `main` does not catch. -/
def finishPost (env : Env) (evs : List Event) (body : Body) :
    List Event × Except PyError (Body × Nat) :=
  let evs2 := evs ++ [Event.createSite body]
  match create_site env.post body with
  | none => (evs2, Except.error PyError.attributeError)
  | some status => (evs2, Except.ok (body, status))

/-- One iteration of the `for site in site_data` loop (lines 216–227),
returning the Mist calls it made and either the uncaught error it died
with or the posted body together with the response status. -/
def processSite (env : Env) (site : Record) :
    List Event × Except PyError (Body × Nat) :=
  match buildBody env site with
  | Except.error e => ([], Except.error e)
  | Except.ok body2 =>
    match getField site "rf_template_name" with
    | none => ([], Except.error (PyError.keyError "rf_template_name"))
    | some tname =>
      if tname = "" then
        finishPost env [] body2
      else
        match get_rftemplate_by_name env.templates tname with
        | Except.error e => ([Event.templateLookup tname], Except.error e)
        | Except.ok tmpl =>
          finishPost env [Event.templateLookup tname]
            (dictSet body2 "rftemplate_id" (JVal.str tmpl.id))

/-- The orchestrator loop: each completed row's body is appended to
`successful_sites` when the status is 200 and to `failed_sites`
otherwise; an uncaught error aborts the whole loop. -/
def runLoop (env : Env) :
    List Record → List Body → List Body →
    List Event × Except PyError (List Body × List Body)
  | [], successful_sites, failed_sites =>
    ([], Except.ok (successful_sites, failed_sites))
  | site :: rest, successful_sites, failed_sites =>
    match processSite env site with
    | (evs, Except.error e) => (evs, Except.error e)
    | (evs, Except.ok (body, status)) =>
      match runLoop env rest
          (if status = 200 then successful_sites ++ [body]
           else successful_sites)
          (if status = 200 then failed_sites
           else failed_sites ++ [body]) with
      | (evs2, result) => (evs ++ evs2, result)

/-- Embedding of `main`: verify the credential, and only when the result
is truthy run the loop over the rows; otherwise the function ends with
both outcome lists still empty and no Mist call made. -/
def main (env : Env) (site_data : List Record) :
    List Event × Except PyError (List Body × List Body) :=
  if truthy (verify_self env.selfResp) then
    runLoop env site_data [] []
  else
    ([], Except.ok ([], []))

/-! ## Derived definitions and concrete fixtures -/

/-- The body as it stands after line 219 of `main` (geocode result, then
`name`, then `timezone`). -/
def builtBody (env : Env) (g : GAddr) (name : String) : Body :=
  geoBody g ++
    [("name", JVal.str name),
     ("timezone", optVal JVal.str
        (get_google_timezone env.tz
          (optVal JVal.num g.lat) (optVal JVal.num g.lng)))]

/-- A geocoder answer with every attribute present. -/
def gW : GAddr :=
  ⟨some "1600 Amphitheatre Pkwy", some 37, some (-122), some "US"⟩

/-- A run environment in which every external call succeeds and every
site creation returns 200. -/
def envW : Env :=
  { geo := fun _ => some gW
    tz := fun _ _ => some "America/Los_Angeles"
    templates := some [⟨"TPL-A", "id-a"⟩]
    post := fun _ => some 200
    selfResp := some 200 }

/-- A full input row with an empty template name. -/
def rowW : Record :=
  [("site_name", "HQ"), ("site_address", "addr"), ("site_groups", ""),
   ("rf_template_id", ""), ("rf_template_name", "")]

/-- The body `envW` builds and posts for `rowW`. -/
def bodyW : Body :=
  [("address", JVal.str "1600 Amphitheatre Pkwy"),
   ("latlng", JVal.obj [("lat", JVal.num 37), ("lng", JVal.num (-122))]),
   ("country_code", JVal.str "US"),
   ("name", JVal.str "HQ"),
   ("timezone", JVal.str "America/Los_Angeles")]

/-- Like `envW` but the credential check gets a 401. -/
def envNoAuth : Env :=
  { envW with selfResp := some 401 }

/-- Like `envW` but the geocoder raises on every address. -/
def envGeoFail : Env :=
  { envW with geo := fun _ => none }

/-- Like `envW` but every timezone lookup fails. -/
def envTzFail : Env :=
  { envW with tz := fun _ _ => none }

/-- A row naming a template that `envW`'s org does not have. -/
def rowNoTpl : Record :=
  [("site_name", "Branch-1"), ("site_address", "addr"), ("site_groups", ""),
   ("rf_template_id", ""), ("rf_template_name", "TPL-B")]

/-- `rowW` with a different value in the `rf_template_id` column only. -/
def rowW2 : Record :=
  [("site_name", "HQ"), ("site_address", "addr"), ("site_groups", ""),
   ("rf_template_id", "some-ignored-id"), ("rf_template_name", "")]

/-- `rowW` naming the template `envW`'s org does have. -/
def rowTplA : Record :=
  [("site_name", "HQ"), ("site_address", "addr"), ("site_groups", ""),
   ("rf_template_id", ""), ("rf_template_name", "TPL-A")]

/-- The header documented in the module comment of `site_creator.py`. -/
def documented_header : List String :=
  ["site_name", "site_address", "site_groups", "rf_template_id"]

/-- The geocoder answer of the §8 worked example of the spec
(37.33 = 3733/100, -122.03 = -12203/100, exactly). -/
def gHQ : GAddr :=
  ⟨some "1 Infinite Loop, Cupertino, CA 95014, USA",
   some (3733 / 100), some (-(12203 / 100)), some "US"⟩

/-- A run environment realizing the §8 worked example of the spec. -/
def envHQ : Env :=
  { geo := fun _ => some gHQ
    tz := fun _ _ => some "America/Los_Angeles"
    templates := some []
    post := fun _ => some 200
    selfResp := some 200 }

/-- The input row of the §8 worked example of the spec. -/
def rowHQ : Record :=
  [("site_name", "HQ"),
   ("site_address", "1 Infinite Loop, Cupertino, CA"),
   ("site_groups", ""), ("rf_template_id", "")]

/-- The body the code actually builds for the §8 worked example. -/
def bodyHQ : Body :=
  [("address", JVal.str "1 Infinite Loop, Cupertino, CA 95014, USA"),
   ("latlng", JVal.obj
      [("lat", JVal.num (3733 / 100)), ("lng", JVal.num (-(12203 / 100)))]),
   ("country_code", JVal.str "US"),
   ("name", JVal.str "HQ"),
   ("timezone", JVal.str "America/Los_Angeles")]

/-- The submission dict the spec example claims, following the spec words
exactly: keys `name`, `latlng`, `country_code`, `timezone` and nothing
else (stated for comparison with what the code builds). -/
def specExampleSubmission : Body :=
  [("name", JVal.str "HQ"),
   ("latlng", JVal.obj
      [("lat", JVal.num (3733 / 100)), ("lng", JVal.num (-(12203 / 100)))]),
   ("country_code", JVal.str "US"),
   ("timezone", JVal.str "America/Los_Angeles")]

/-! ## Helper lemmas -/

/-- When the address field is present and the geocoder answers, lines
217–219 deterministically build `builtBody`. -/
theorem buildBody_eq (env : Env) (site : Record) (addr name : String)
    (g : GAddr)
    (ha : getField site "site_address" = some addr)
    (hg : env.geo addr = some g)
    (hn : getField site "site_name" = some name) :
    buildBody env site = Except.ok (builtBody env g name) := by
  have hgeo : get_google_geoinfo env.geo addr = some (geoBody g) := by
    rw [get_google_geoinfo, hg]; rfl
  simp only [buildBody, ha, hgeo, hn]
  rfl

/-- Conversely, any body produced by lines 217–219 is a `builtBody` for
some present address field, geocoder answer and name field. -/
theorem buildBody_ok_elim (env : Env) (site : Record) (b : Body)
    (h : buildBody env site = Except.ok b) :
    ∃ addr g name, getField site "site_address" = some addr ∧
      env.geo addr = some g ∧ getField site "site_name" = some name ∧
      b = builtBody env g name := by
  have h0 := h
  unfold buildBody at h
  split at h
  · simp at h
  · rename_i addr ha
    split at h
    · simp at h
    · rename_i body0 hgeo
      split at h
      · simp at h
      · rename_i name hn
        rw [get_google_geoinfo] at hgeo
        obtain ⟨g, hg, hb0⟩ := Option.map_eq_some'.mp hgeo
        refine ⟨addr, g, name, ha, hg, hn, ?_⟩
        have h2 := buildBody_eq env site addr name g ha hg hn
        rw [h0] at h2
        exact (Except.ok.injEq _ _ ▸ h2 : b = builtBody env g name)

/-- The body of lines 217–219 never contains an `rftemplate_id` key. -/
theorem builtBody_no_rftemplate (env : Env) (g : GAddr) (name : String) :
    hasKey (builtBody env g name) "rftemplate_id" = false := by
  simp [builtBody, geoBody, hasKey]

/-- The `timezone` key of the built body holds exactly the timezone
lookup's result, `null` when that lookup failed. -/
theorem builtBody_timezone (env : Env) (g : GAddr) (name : String) :
    dictGet (builtBody env g name) "timezone" =
      some (optVal JVal.str
        (get_google_timezone env.tz
          (optVal JVal.num g.lat) (optVal JVal.num g.lng))) := by
  rfl

/-- Any completed pass of the orchestrator loop grows the two outcome
lists by exactly one entry per remaining row. -/
theorem runLoop_ok_length (env : Env) :
    ∀ (rows : List Record) (succ failed : List Body) (evs : List Event)
      (s f : List Body),
      runLoop env rows succ failed = (evs, Except.ok (s, f)) →
      s.length + f.length = succ.length + failed.length + rows.length := by
  intro rows
  induction rows with
  | nil =>
    intro succ failed evs s f h
    simp only [runLoop, Prod.mk.injEq, Except.ok.injEq] at h
    obtain ⟨h1, h2, h3⟩ := h
    subst h2
    subst h3
    simp
  | cons site rest ih =>
    intro succ failed evs s f h
    simp only [runLoop] at h
    split at h
    · simp at h
    · rename_i evs0 body status heq
      split at h
      case isTrue h200 =>
        simp only [Prod.mk.injEq] at h
        obtain ⟨h1, h2⟩ := h
        have hpair : runLoop env rest (succ ++ [body]) failed
            = ((runLoop env rest (succ ++ [body]) failed).1,
               Except.ok (s, f)) := by
          rw [← h2]
        have hrec := ih (succ ++ [body]) failed _ s f hpair
        simp at hrec ⊢
        omega
      case isFalse h200 =>
        simp only [Prod.mk.injEq] at h
        obtain ⟨h1, h2⟩ := h
        have hpair : runLoop env rest succ (failed ++ [body])
            = ((runLoop env rest succ (failed ++ [body])).1,
               Except.ok (s, f)) := by
          rw [← h2]
        have hrec := ih succ (failed ++ [body]) _ s f hpair
        simp at hrec ⊢
        omega

/-- A successful `List.find?` returns the first satisfying element: the
list splits around it with no earlier satisfying element. -/
theorem find?_first {p : Template → Bool} :
    ∀ (ts : List Template) (t : Template), ts.find? p = some t →
      p t = true ∧ ∃ pre suf, ts = pre ++ t :: suf ∧
        ∀ u ∈ pre, p u = false := by
  intro ts
  induction ts with
  | nil => intro t h; simp at h
  | cons a rest ih =>
    intro t h
    by_cases hpa : p a
    · rw [List.find?_cons_of_pos _ hpa] at h
      have hat : a = t := by injection h
      subst hat
      exact ⟨hpa, [], rest, rfl, by intro u hu; simp at hu⟩
    · rw [List.find?_cons_of_neg _ hpa] at h
      obtain ⟨hp, pre, suf, hts, hpre⟩ := ih t h
      refine ⟨hp, a :: pre, suf, by rw [hts]; rfl, ?_⟩
      intro u hu
      rcases List.mem_cons.mp hu with h1 | h2
      · subst h1; simpa using hpa
      · exact hpre u h2

/-! ## Claims -/

/-- C1: for every run whose credential check is truthy and whose
orchestrator loop completes without an uncaught error, each row's
submission body lands in exactly one of the two outcome lists, so the
count of successes plus the count of failures equals the row count. -/
theorem one_outcome_per_row (env : Env) (site_data : List Record)
    (evs : List Event) (successful_sites failed_sites : List Body)
    (hver : truthy (verify_self env.selfResp) = true)
    (h : main env site_data =
      (evs, Except.ok (successful_sites, failed_sites))) :
    successful_sites.length + failed_sites.length = site_data.length := by
  unfold main at h
  rw [if_pos hver] at h
  have := runLoop_ok_length env site_data [] [] evs _ _ h
  simpa using this

theorem one_outcome_per_row_witness :
    ([bodyW] : List Body).length + ([] : List Body).length
      = ([rowW] : List Record).length :=
  one_outcome_per_row envW [rowW] [Event.createSite bodyW] [bodyW] []
    (by rfl) (by rfl)

/-- C2: when `verify_self` does not return `True` (it returned `False`
after a transport failure, or fell through to `None` on a non-200), the
run makes no Mist call at all — in particular no `create_site` POST —
and both outcome collections stay empty. -/
theorem failed_verify_no_calls (env : Env) (site_data : List Record)
    (h : verify_self env.selfResp ≠ some true) :
    main env site_data = ([], Except.ok ([], [])) := by
  have hf : truthy (verify_self env.selfResp) = false := by
    cases hv : verify_self env.selfResp with
    | none => rfl
    | some b =>
      cases b
      · rfl
      · exact absurd hv h
  simp [main, hf]

theorem failed_verify_no_calls_witness :
    main envNoAuth [rowW] = ([], Except.ok ([], [])) :=
  failed_verify_no_calls envNoAuth [rowW] (by decide)

/-- C3: for a row whose `rf_template_name` field is the empty string, the
loop iteration performs no template lookup call, and whatever body it
submits carries no `rftemplate_id` key. -/
theorem empty_template_name_skips_lookup (env : Env) (site : Record)
    (h : getField site "rf_template_name" = some "") :
    (∀ n, Event.templateLookup n ∉ (processSite env site).1) ∧
    (∀ b status, (processSite env site).2 = Except.ok (b, status) →
      hasKey b "rftemplate_id" = false) := by
  have key : ∀ body2, buildBody env site = Except.ok body2 →
      hasKey body2 "rftemplate_id" = false := by
    intro body2 hb
    obtain ⟨addr, g, name, ha, hg, hn, hbb⟩ :=
      buildBody_ok_elim env site body2 hb
    rw [hbb]
    exact builtBody_no_rftemplate env g name
  cases hb : buildBody env site with
  | error e =>
    simp only [processSite, hb]
    constructor
    · intro n
      simp
    · intro b status hok
      simp at hok
  | ok body2 =>
    simp only [processSite, hb, h, if_true]
    unfold finishPost
    cases hc : create_site env.post body2 with
    | none =>
      simp only [hc]
      constructor
      · intro n
        simp
      · intro b status hok
        simp at hok
    | some status =>
      simp only [hc]
      constructor
      · intro n
        simp
      · intro b st hok
        simp only [Except.ok.injEq, Prod.mk.injEq] at hok
        obtain ⟨hb2, -⟩ := hok
        rw [← hb2]
        exact key body2 hb

theorem empty_template_name_skips_lookup_witness :
    (∀ n, Event.templateLookup n ∉ (processSite envW rowW).1) ∧
    (∀ b status, (processSite envW rowW).2 = Except.ok (b, status) →
      hasKey b "rftemplate_id" = false) :=
  empty_template_name_skips_lookup envW rowW (by rfl)

/-- C4: the claim says a row whose template name matches no returned
template is classified Failed with a LookupError and the run continues;
the code instead lets `next` raise an uncaught `StopIteration`, aborting
the whole run at that row (the second row is never processed and neither
outcome list is produced). -/
theorem missing_template_aborts_run :
    main envW [rowNoTpl, rowW] =
      ([Event.templateLookup "TPL-B"], Except.error PyError.stopIteration)
    := rfl

/-- C5 counterexample: with two templates of the same name, resolution
does not report an error; it silently returns the first. -/
theorem ambiguous_template_silently_first :
    get_rftemplate_by_name
        (some [⟨"T", "id-1"⟩, ⟨"T", "id-2"⟩]) "T"
      = Except.ok ⟨"T", "id-1"⟩ := rfl

/-- C5 (amended): resolution by name uses an exact, case-sensitive match
and a missing name is an error (`StopIteration`), but an ambiguous name
is not an error: the first template carrying the name, in listing order,
is returned silently. -/
theorem template_resolution_exact_first (ts : List Template) (n : String) :
    ((∀ t ∈ ts, t.name ≠ n) →
      get_rftemplate_by_name (some ts) n
        = Except.error PyError.stopIteration) ∧
    (∀ t, get_rftemplate_by_name (some ts) n = Except.ok t →
      t.name = n ∧ ∃ pre suf, ts = pre ++ t :: suf ∧
        ∀ u ∈ pre, u.name ≠ n) := by
  constructor
  · intro hnone
    have hfind : ts.find? (fun t => t.name == n) = none := by
      rw [List.find?_eq_none]
      intro t ht
      simpa using hnone t ht
    simp only [get_rftemplate_by_name, get_rf_templates, hfind]
  · intro t ht
    simp only [get_rftemplate_by_name, get_rf_templates] at ht
    cases hf : ts.find? (fun t => t.name == n) with
    | none => rw [hf] at ht; simp at ht
    | some u =>
      rw [hf] at ht
      simp only [Except.ok.injEq] at ht
      subst ht
      obtain ⟨hp, pre, suf, hts, hpre⟩ := find?_first ts u hf
      refine ⟨by simpa using hp, pre, suf, hts, ?_⟩
      intro u hu
      simpa using hpre u hu

theorem template_resolution_exact_first_witness :
    get_rftemplate_by_name (some [⟨"TPL-A", "id-a"⟩]) "tpl-a"
      = Except.error PyError.stopIteration ∧
    (⟨"TPL-A", "id-a"⟩ : Template).name = "TPL-A" :=
  ⟨(template_resolution_exact_first [⟨"TPL-A", "id-a"⟩] "tpl-a").1
    (by decide),
   ((template_resolution_exact_first [⟨"TPL-A", "id-a"⟩] "TPL-A").2
    ⟨"TPL-A", "id-a"⟩ (by rfl)).1⟩

/-- C6 counterexample: with a header lacking the address, group and
template columns, `read_csv` does not fail with any parse error — it
happily produces a record. -/
theorem missing_columns_still_parsed :
    read_csv ["site_name"] [["Lobby"]] = [[("site_name", "Lobby")]] := rfl

/-- C6 (amended): the loader never validates the header.  With exactly
the documented header (which has `rf_template_id` but not the
`rf_template_name` column the loop reads), loading succeeds and the run
instead dies on the first row with an uncaught `KeyError` on
`rf_template_name`. -/
theorem documented_header_crashes_keyerror (env : Env)
    (name addr groups tid : String) (g : GAddr)
    (hg : env.geo addr = some g)
    (hver : truthy (verify_self env.selfResp) = true) :
    main env (read_csv documented_header [[name, addr, groups, tid]]) =
      ([], Except.error (PyError.keyError "rf_template_name")) := by
  have hsite : read_csv documented_header [[name, addr, groups, tid]] =
      [[("site_name", name), ("site_address", addr),
        ("site_groups", groups), ("rf_template_id", tid)]] := rfl
  rw [hsite]
  have hbb := buildBody_eq env
    [("site_name", name), ("site_address", addr),
     ("site_groups", groups), ("rf_template_id", tid)]
    addr name g rfl hg rfl
  have hps : processSite env
      [("site_name", name), ("site_address", addr),
       ("site_groups", groups), ("rf_template_id", tid)] =
      ([], Except.error (PyError.keyError "rf_template_name")) := by
    simp only [processSite, hbb]
    rfl
  unfold main
  rw [if_pos hver]
  simp only [runLoop, hps]

theorem documented_header_crashes_keyerror_witness :
    main envW (read_csv documented_header [["HQ", "addr", "", ""]]) =
      ([], Except.error (PyError.keyError "rf_template_name")) :=
  documented_header_crashes_keyerror envW "HQ" "addr" "" "" gW rfl rfl

/-- C7: when the geocoder fails for a row's address (converted to a
`None` result), the unconditional `body['name'] = ...` subscript on that
missing result raises `TypeError` and the whole run aborts at that row —
no outcome lists are produced, rather than the row landing in Failed. -/
theorem geocode_failure_crashes_run (env : Env) (site : Record)
    (rest : List Record) (addr : String)
    (ha : getField site "site_address" = some addr)
    (hg : env.geo addr = none)
    (hver : truthy (verify_self env.selfResp) = true) :
    main env (site :: rest) = ([], Except.error PyError.typeError) := by
  have hgeo : get_google_geoinfo env.geo addr = none := by
    rw [get_google_geoinfo, hg]; rfl
  have hbb : buildBody env site = Except.error PyError.typeError := by
    simp only [buildBody, ha, hgeo]
  have hps : processSite env site = ([], Except.error PyError.typeError) := by
    simp only [processSite, hbb]
  unfold main
  rw [if_pos hver]
  simp only [runLoop, hps]

theorem geocode_failure_crashes_run_witness :
    main envGeoFail [rowW] = ([], Except.error PyError.typeError) :=
  geocode_failure_crashes_run envGeoFail rowW [] "addr" rfl rfl rfl

/-- C8 counterexample: for the §8 worked example the code's body carries
an `address` key (the geocoder's normalized address), which the spec's
claimed exact submission does not have, so the example submission as
written is not what the code builds. -/
theorem example_submission_has_address_key :
    buildBody envHQ rowHQ = Except.ok bodyHQ ∧
    hasKey bodyHQ "address" = true ∧
    hasKey specExampleSubmission "address" = false ∧
    dictGet bodyHQ "address" ≠ dictGet specExampleSubmission "address" := by
  refine ⟨rfl, rfl, rfl, ?_⟩
  simp [bodyHQ, specExampleSubmission, dictGet]

/-- C8 (amended): body building is a pure deterministic mapping — the
body contains exactly the record's name, the GeoInfo's normalized
address, lat, lng and country code, and the timezone lookup's result;
and it never contains an `rftemplate_id` key. -/
theorem submission_mapping_pure (env : Env) (site : Record)
    (addr name : String) (g : GAddr)
    (ha : getField site "site_address" = some addr)
    (hg : env.geo addr = some g)
    (hn : getField site "site_name" = some name) :
    buildBody env site = Except.ok (builtBody env g name) ∧
    dictGet (builtBody env g name) "name" = some (JVal.str name) ∧
    dictGet (builtBody env g name) "address"
      = some (optVal JVal.str g.address) ∧
    dictGet (builtBody env g name) "latlng"
      = some (JVal.obj [("lat", optVal JVal.num g.lat),
                        ("lng", optVal JVal.num g.lng)]) ∧
    dictGet (builtBody env g name) "country_code"
      = some (optVal JVal.str g.country) ∧
    dictGet (builtBody env g name) "timezone"
      = some (optVal JVal.str (get_google_timezone env.tz
          (optVal JVal.num g.lat) (optVal JVal.num g.lng))) ∧
    hasKey (builtBody env g name) "rftemplate_id" = false :=
  ⟨buildBody_eq env site addr name g ha hg hn, rfl, rfl, rfl, rfl, rfl,
   builtBody_no_rftemplate env g name⟩

theorem submission_mapping_pure_witness :
    buildBody envHQ rowHQ = Except.ok (builtBody envHQ gHQ "HQ") ∧
    dictGet (builtBody envHQ gHQ "HQ") "name" = some (JVal.str "HQ") ∧
    dictGet (builtBody envHQ gHQ "HQ") "address"
      = some (optVal JVal.str gHQ.address) ∧
    dictGet (builtBody envHQ gHQ "HQ") "latlng"
      = some (JVal.obj [("lat", optVal JVal.num gHQ.lat),
                        ("lng", optVal JVal.num gHQ.lng)]) ∧
    dictGet (builtBody envHQ gHQ "HQ") "country_code"
      = some (optVal JVal.str gHQ.country) ∧
    dictGet (builtBody envHQ gHQ "HQ") "timezone"
      = some (optVal JVal.str (get_google_timezone envHQ.tz
          (optVal JVal.num gHQ.lat) (optVal JVal.num gHQ.lng))) ∧
    hasKey (builtBody envHQ gHQ "HQ") "rftemplate_id" = false :=
  submission_mapping_pure envHQ rowHQ "1 Infinite Loop, Cupertino, CA"
    "HQ" gHQ rfl rfl rfl

/-- C9: the loop iteration depends on a row only through its
`site_address`, `site_name` and `rf_template_name` fields — so the
documented `rf_template_id` column never drives anything — and whenever
the body is built and `rf_template_name` is non-empty, a template lookup
for exactly that name is issued. -/
theorem template_driven_by_rf_template_name (env : Env) :
    (∀ s1 s2 : Record,
      getField s1 "site_address" = getField s2 "site_address" →
      getField s1 "site_name" = getField s2 "site_name" →
      getField s1 "rf_template_name" = getField s2 "rf_template_name" →
      processSite env s1 = processSite env s2) ∧
    (∀ (site : Record) (b : Body) (n : String),
      buildBody env site = Except.ok b →
      getField site "rf_template_name" = some n → n ≠ "" →
      Event.templateLookup n ∈ (processSite env site).1) := by
  constructor
  · intro s1 s2 h1 h2 h3
    have hb : buildBody env s1 = buildBody env s2 := by
      unfold buildBody
      rw [h1, h2]
    unfold processSite
    rw [hb, h3]
  · intro site b n hbb htn hne
    simp only [processSite, hbb, htn]
    rw [if_neg hne]
    cases ht : get_rftemplate_by_name env.templates n with
    | error e => simp [ht]
    | ok tmpl =>
      simp only [ht, finishPost]
      cases hc : create_site env.post
          (dictSet b "rftemplate_id" (JVal.str tmpl.id)) with
      | none => simp [hc]
      | some status => simp [hc]

theorem template_driven_by_rf_template_name_witness :
    processSite envW rowW = processSite envW rowW2 ∧
    Event.templateLookup "TPL-A" ∈ (processSite envW rowTplA).1 :=
  ⟨(template_driven_by_rf_template_name envW).1 rowW rowW2 rfl rfl rfl,
   (template_driven_by_rf_template_name envW).2 rowTplA
     (builtBody envW gW "HQ") "TPL-A" rfl rfl (by decide)⟩

/-- C10: when geocoding succeeds but every timezone lookup fails, the row
is not routed to Failed before submission: the body is still POSTed with
its `timezone` key set to `null`, and the row's outcome is decided solely
by the response status — it goes to the success list exactly when the
status is 200 and to the failure list otherwise. -/
theorem timezone_failure_still_posts (env : Env) (site : Record)
    (addr name : String) (g : GAddr) (status : Nat)
    (ha : getField site "site_address" = some addr)
    (hg : env.geo addr = some g)
    (hn : getField site "site_name" = some name)
    (htz : ∀ lat lng, env.tz lat lng = none)
    (ht : getField site "rf_template_name" = some "")
    (hpost : ∀ b, env.post b = some status) :
    processSite env site =
      ([Event.createSite (builtBody env g name)],
       Except.ok (builtBody env g name, status)) ∧
    dictGet (builtBody env g name) "timezone" = some JVal.null ∧
    runLoop env [site] [] [] =
      ([Event.createSite (builtBody env g name)],
       if status = 200 then Except.ok ([builtBody env g name], [])
       else Except.ok ([], [builtBody env g name])) := by
  have hbb := buildBody_eq env site addr name g ha hg hn
  have hps : processSite env site =
      ([Event.createSite (builtBody env g name)],
       Except.ok (builtBody env g name, status)) := by
    simp only [processSite, hbb, ht, if_true, finishPost, create_site, hpost]
    rfl
  refine ⟨hps, ?_, ?_⟩
  · rw [builtBody_timezone, get_google_timezone, htz]
    rfl
  · simp only [runLoop, hps]
    by_cases h200 : status = 200
    · simp [h200]
    · simp [h200]

theorem timezone_failure_still_posts_witness :
    processSite envTzFail rowW =
      ([Event.createSite (builtBody envTzFail gW "HQ")],
       Except.ok (builtBody envTzFail gW "HQ", 200)) ∧
    dictGet (builtBody envTzFail gW "HQ") "timezone" = some JVal.null ∧
    runLoop envTzFail [rowW] [] [] =
      ([Event.createSite (builtBody envTzFail gW "HQ")],
       if 200 = 200 then Except.ok ([builtBody envTzFail gW "HQ"], [])
       else Except.ok ([], [builtBody envTzFail gW "HQ"])) :=
  timezone_failure_still_posts envTzFail rowW "addr" "HQ" gW 200
    rfl rfl rfl (fun _ _ => rfl) rfl (fun _ => rfl)

end SiteCreator
